import Mathlib

/-!
Verification of the per-frame simulation core of a 2D wave-survival game.

The development shallowly embeds the Python source:
  * src/entities/player.py        (Player damage / dash / stamina logic)
  * src/entities/enemies/base_enemy.py  (Enemy.take_damage)
  * src/systems/collision/spatial_grid.py (SpatialGrid)
  * src/systems/wave_system.py    (WaveSystem state machine)
  * src/systems/xp_system.py      (XPSystem leveling loop)
  * src/systems/upgrade_system.py + src/upgrades/* (upgrade choice filter)
  * src/systems/events/event_bus.py (EventBus.emit / _safe_call)
  * src/game_engine.py            (projectile-enemy kill resolution)

Numeric fields that are Python floats are modeled as rationals; all
arithmetic in the embedded routines is exact at the inputs considered.
-/

namespace VSGame

/-! ## Player (src/entities/player.py)

The structure carries every field that the embedded operations
(take_damage, take_projectile_damage, heal, try_dash, update) read or
write, plus the per-instance constants set in Player.__init__.
Position, velocity, facing angle, sprites and the (unit-normalized)
dash_direction are omitted: they feed only the movement and rendering
code, which no embedded operation's damage/stamina/flag logic reads. -/

structure Player where
  health : ℚ
  max_health : ℚ
  hp_regen : ℚ
  stamina : ℚ
  max_stamina : ℚ
  stamina_regen : ℚ
  dash_cost : ℚ
  dash_duration : ℚ
  dash_cooldown_time : ℚ
  is_dashing : Bool
  dash_timer : ℚ
  dash_cooldown : ℚ
  invulnerable : Bool
  is_slowed : Bool
  slow_timer : ℚ
  slow_multiplier : ℚ
  bomb_count : ℕ
  bomb_cooldown : ℚ
  damage_immunity : Bool
  damage_immunity_timer : ℚ
  damage_immunity_duration : ℚ
  deriving DecidableEq, Repr

/-- Player state right after Player.__init__ (PlayerConfig: MAX_HEALTH 100;
BombConfig: STARTING_BOMBS 3, PLACEMENT_COOLDOWN 2.0). -/
def Player.init : Player where
  health := 100
  max_health := 100
  hp_regen := 1
  stamina := 30
  max_stamina := 100
  stamina_regen := 5
  dash_cost := 30
  dash_duration := 1/5
  dash_cooldown_time := 1/2
  is_dashing := false
  dash_timer := 0
  dash_cooldown := 0
  invulnerable := false
  is_slowed := false
  slow_timer := 0
  slow_multiplier := 1
  bomb_count := 3
  bomb_cooldown := 2
  damage_immunity := false
  damage_immunity_timer := 0
  damage_immunity_duration := 1/5

/-- Player.take_damage (player.py lines 239-263): contact damage, skipped
only while invulnerable (dash); health clamped at 0 on death. Returns the
new state together with the Python return value (True iff the player died). -/
def Player.take_damage (p : Player) (damage : ℚ) : Player × Bool :=
  if p.invulnerable then (p, false)
  else
    let h := p.health - damage
    if h ≤ 0 then ({ p with health := 0 }, true)
    else ({ p with health := h }, false)

/-- Player.heal (player.py lines 265-267). -/
def Player.heal (p : Player) (amount : ℚ) : Player :=
  { p with health := min p.max_health (p.health + amount) }

/-- Player.take_projectile_damage (player.py lines 413-440): skipped while
invulnerable (dash) or during the post-hit damage-immunity window;
otherwise applies damage, starts the immunity window, clamps health at 0.
Returns the Python return value (True iff damage was applied). -/
def Player.take_projectile_damage (p : Player) (damage : ℚ) : Player × Bool :=
  if p.invulnerable || p.damage_immunity then (p, false)
  else
    let h := p.health - damage
    let p1 := { p with health := h, damage_immunity := true,
                       damage_immunity_timer := p.damage_immunity_duration }
    if h ≤ 0 then ({ p1 with health := 0 }, true)
    else (p1, true)

/-- Player.try_dash (player.py lines 292-326). Returns True iff the dash
starts; on success consumes dash_cost stamina and raises the is_dashing
and invulnerable flags. The stored dash_direction (a unit vector used
only by movement) is outside the modeled state. -/
def Player.try_dash (p : Player) (dx dy : ℚ) : Player × Bool :=
  if p.is_dashing || 0 < p.dash_cooldown then (p, false)
  else if p.stamina < p.dash_cost then (p, false)
  else if dx = 0 ∧ dy = 0 then (p, false)
  else ({ p with stamina := p.stamina - p.dash_cost,
                 is_dashing := true,
                 dash_timer := p.dash_duration,
                 invulnerable := true }, true)

/-- Player.apply_slow (player.py lines 328-341). -/
def Player.apply_slow (p : Player) (duration strength : ℚ) : Player :=
  { p with is_slowed := true, slow_timer := duration, slow_multiplier := strength }

/-- Slow-debuff timer step at the top of Player.update (lines 133-138). -/
def Player.update_slow (p : Player) (dt : ℚ) : Player :=
  if p.is_slowed then
    let t := p.slow_timer - dt
    if t ≤ 0 then { p with slow_timer := t, is_slowed := false, slow_multiplier := 1 }
    else { p with slow_timer := t }
  else p

/-- Damage-immunity timer step of Player.update (lines 140-143). -/
def Player.update_immunity (p : Player) (dt : ℚ) : Player :=
  if p.damage_immunity then
    let t := p.damage_immunity_timer - dt
    if t ≤ 0 then { p with damage_immunity_timer := t, damage_immunity := false }
    else { p with damage_immunity_timer := t }
  else p

/-- Bomb-cooldown step of Player.update (lines 145-147). -/
def Player.update_bomb_cooldown (p : Player) (dt : ℚ) : Player :=
  if 0 < p.bomb_cooldown then { p with bomb_cooldown := p.bomb_cooldown - dt } else p

/-- Dash-cooldown step of Player.update (lines 149-151). -/
def Player.update_dash_cooldown (p : Player) (dt : ℚ) : Player :=
  if 0 < p.dash_cooldown then { p with dash_cooldown := p.dash_cooldown - dt } else p

/-- Dash-state step of Player.update (lines 153-166): while dashing the
timer counts down; on expiry the dash and its invulnerability end and the
dash cooldown starts. Movement integration is outside the modeled state. -/
def Player.update_dash (p : Player) (dt : ℚ) : Player :=
  if p.is_dashing then
    let t := p.dash_timer - dt
    if t ≤ 0 then
      { p with dash_timer := t, is_dashing := false, invulnerable := false,
               dash_cooldown := p.dash_cooldown_time }
    else { p with dash_timer := t }
  else p

/-- Health and stamina regeneration at the end of Player.update
(lines 181-186). -/
def Player.update_regen (p : Player) (dt : ℚ) : Player :=
  let p1 := if 0 < p.hp_regen
    then { p with health := min (p.health + p.hp_regen * dt) p.max_health }
    else p
  { p1 with stamina := min (p1.stamina + p1.stamina_regen * dt) p1.max_stamina }

/-- Player.update (player.py lines 130-204) restricted to the modeled
state: the timer/flag/regeneration pipeline in source order. The movement
and sprite-rotation parts touch only omitted fields. -/
def Player.update (p : Player) (dt : ℚ) : Player :=
  ((((p.update_slow dt).update_immunity dt).update_bomb_cooldown dt).update_dash_cooldown
    dt).update_dash dt |>.update_regen dt

/-! ## Enemy (src/entities/enemies/base_enemy.py) -/

/-- Health-relevant projection of the Enemy entity. -/
structure Enemy where
  health : ℚ
  max_health : ℚ
  is_dead : Bool
  deriving DecidableEq, Repr

/-- Enemy.take_damage (base_enemy.py lines 125-140): subtract damage,
clamp health at 0 and mark dead; returns True iff the enemy died from
this damage. -/
def Enemy.take_damage (e : Enemy) (damage : ℚ) : Enemy × Bool :=
  let h := e.health - damage
  if h ≤ 0 then ({ e with health := 0, is_dead := true }, true)
  else ({ e with health := h }, false)

/-- Player states reachable from Player.__init__ by the embedded
operations. -/
inductive PlayerReach : Player → Prop
  | init : PlayerReach Player.init
  | update {p} (dt : ℚ) : PlayerReach p → PlayerReach (p.update dt)
  | try_dash {p} (dx dy : ℚ) : PlayerReach p → PlayerReach (p.try_dash dx dy).1
  | take_damage {p} (d : ℚ) : PlayerReach p → PlayerReach (p.take_damage d).1
  | take_projectile_damage {p} (d : ℚ) :
      PlayerReach p → PlayerReach (p.take_projectile_damage d).1
  | heal {p} (a : ℚ) : PlayerReach p → PlayerReach (p.heal a)
  | apply_slow {p} (d s : ℚ) : PlayerReach p → PlayerReach (p.apply_slow d s)

/-! ## Spatial grid (src/systems/collision/spatial_grid.py)

Positions are rationals; Python's float floor division `v // cell_size`
followed by int() is the integer floor of the exact quotient, embedded
as Int.floor. The grid dict-of-buckets is represented by the list of
add_entity insertion records: the bucket of a cell consists of exactly
the recorded entities whose covered-cell range contains that cell, in
insertion order. -/

structure Vec2 where
  x : ℚ
  y : ℚ
  deriving DecidableEq, Repr

/-- Integer range [lo, hi] as a list, mirroring Python range(lo, hi + 1). -/
def cell_range (lo hi : ℤ) : List ℤ :=
  (List.range (hi + 1 - lo).toNat).map (fun i : ℕ => lo + (i : ℤ))

/-- SpatialGrid._get_cells_for_entity (spatial_grid.py lines 43-75) with an
explicit radius: all cells (x, y) with
floor((pos-radius)/cell_size) ≤ x,y ≤ floor((pos+radius)/cell_size). -/
def get_cells_for_entity (cell_size : ℚ) (pos : Vec2) (radius : ℚ) : List (ℤ × ℤ) :=
  let min_x := ⌊(pos.x - radius) / cell_size⌋
  let max_x := ⌊(pos.x + radius) / cell_size⌋
  let min_y := ⌊(pos.y - radius) / cell_size⌋
  let max_y := ⌊(pos.y + radius) / cell_size⌋
  (cell_range min_x max_x).flatMap fun cx => (cell_range min_y max_y).map fun cy => (cx, cy)

/-- One SpatialGrid.add_entity call: the entity reference with the
position and radius it was inserted under. -/
structure GridEntry (α : Type) where
  ent : α
  pos : Vec2
  rad : ℚ

/-- Grid contents as the sequence of add_entity insertions since the last
clear(). -/
abbrev SpatialGrid (α : Type) : Type := List (GridEntry α)

/-- SpatialGrid.add_entity (lines 77-90): appends the entity to the bucket
of every covered cell; recorded as one insertion. -/
def add_entity (g : SpatialGrid α) (a : α) (pos : Vec2) (radius : ℚ) : SpatialGrid α :=
  g ++ [⟨a, pos, radius⟩]

/-- SpatialGrid.get_nearby_entities (lines 92-125), called with a plain
position: computes the same covered-cell range for the query circle,
unions the buckets of those cells and deduplicates. The bucket of cell c
is reconstructed from the insertion records as the entities whose covered
cells include c. -/
def get_nearby_entities [DecidableEq α] (cell_size : ℚ) (g : SpatialGrid α)
    (pos : Vec2) (radius : ℚ) : List α :=
  ((get_cells_for_entity cell_size pos radius).flatMap fun c =>
      (g.filter fun e => c ∈ get_cells_for_entity cell_size e.pos e.rad).map
        GridEntry.ent).dedup

/-! ## Wave system (src/systems/wave_system.py)

WaveConfig: REST_DURATION 5.0, BASE_ENEMIES 11, ENEMIES_PER_WAVE 25,
MAX_ENEMIES_PER_WAVE 550, BASE_SPAWN_RATE 2.0, SPAWN_RATE_INCREASE 0.2,
MAX_SPAWN_RATE 15.0. The random enemy-type selection _get_enemy_type is
abstracted: an update step reports only whether it spawned an enemy. -/

structure WaveState where
  current_wave : ℕ
  wave_active : Bool
  wave_complete : Bool
  enemies_to_spawn : ℕ
  enemies_spawned : ℕ
  enemies_killed_this_wave : ℕ
  rest_timer : ℚ
  in_rest_period : Bool
  spawn_timer : ℚ
  spawn_rate : ℚ
  deriving DecidableEq, Repr

/-- WaveSystem.__init__ (wave_system.py lines 14-35). -/
def WaveState.init : WaveState where
  current_wave := 0
  wave_active := false
  wave_complete := false
  enemies_to_spawn := 0
  enemies_spawned := 0
  enemies_killed_this_wave := 0
  rest_timer := 3
  in_rest_period := true
  spawn_timer := 0
  spawn_rate := 2

/-- WaveSystem.start_wave (lines 37-66). -/
def WaveState.start_wave (s : WaveState) : WaveState :=
  let w := s.current_wave + 1
  { s with
    current_wave := w
    wave_active := true
    wave_complete := false
    in_rest_period := false
    enemies_to_spawn := min (11 + (w - 1) * 25) 550
    enemies_spawned := 0
    enemies_killed_this_wave := 0
    spawn_rate := min (2 + ((w : ℚ) - 1) * (1/5)) 15
    spawn_timer := 0 }

/-- WaveSystem._complete_wave (lines 109-118). -/
def WaveState.complete_wave (s : WaveState) : WaveState :=
  { s with wave_complete := true, wave_active := false, in_rest_period := true,
           rest_timer := 5 }

/-- WaveSystem.update (lines 68-103). num_enemies is len(enemies); the
returned Bool is whether an enemy type was returned to be spawned. -/
def WaveState.update (s : WaveState) (dt : ℚ) (num_enemies : ℕ) : WaveState × Bool :=
  if s.in_rest_period then
    let t := s.rest_timer - dt
    if t ≤ 0 then (WaveState.start_wave { s with rest_timer := t }, false)
    else ({ s with rest_timer := t }, false)
  else if s.wave_active ∧ ¬s.wave_complete ∧
      s.enemies_to_spawn ≤ s.enemies_spawned ∧ num_enemies = 0 then
    (s.complete_wave, false)
  else if s.wave_active ∧ s.enemies_spawned < s.enemies_to_spawn then
    let t := s.spawn_timer - dt
    if t ≤ 0 then
      ({ s with spawn_timer := 1 / s.spawn_rate,
                enemies_spawned := s.enemies_spawned + 1 }, true)
    else ({ s with spawn_timer := t }, false)
  else (s, false)

/-- WaveSystem.on_enemy_killed (lines 105-107). -/
def WaveState.on_enemy_killed (s : WaveState) : WaveState :=
  { s with enemies_killed_this_wave := s.enemies_killed_this_wave + 1 }

/-- Wave states reachable from WaveSystem.__init__ by update steps and
kill notifications. -/
inductive WaveReach : WaveState → Prop
  | init : WaveReach WaveState.init
  | update {s} (dt : ℚ) (n : ℕ) : WaveReach s → WaveReach (s.update dt n).1
  | on_enemy_killed {s} : WaveReach s → WaveReach s.on_enemy_killed

/-- Phase invariant of the wave state machine: the system is either in a
rest period (wave inactive) or in an active wave (not resting, not yet
complete). -/
abbrev WaveInv (s : WaveState) : Prop :=
  (s.in_rest_period = true ∧ s.wave_active = false) ∨
  (s.wave_active = true ∧ s.in_rest_period = false ∧ s.wave_complete = false)

/-! ## XP system (src/systems/xp_system.py)

GameConfig: BASE_XP_REQUIRED 10, XP_MULTIPLIER 1.5. XP amounts are Python
ints. -/

structure XPState where
  current_level : ℕ
  current_xp : ℕ
  xp_to_next_level : ℕ
  deriving DecidableEq, Repr

/-- Threshold formula int(BASE_XP_REQUIRED * XP_MULTIPLIER ** (level - 1))
from XPSystem._level_up (xp_system.py lines 92-95). With 1.5 = 3/2 the
IEEE-double product 10 * 1.5**(level-1) is exact while 10 * 3^(level-1)
fits in 53 bits (level ≤ 33), and int() truncation of the nonnegative
result is the floor, i.e. Nat division. -/
def xp_threshold (level : ℕ) : ℕ :=
  10 * 3 ^ (level - 1) / 2 ^ (level - 1)

/-- XPSystem.__init__ (lines 13-21). -/
def XPState.init : XPState where
  current_level := 1
  current_xp := 0
  xp_to_next_level := 10

/-- XPSystem._level_up (lines 83-102): consume the threshold, increment the
level, recompute the threshold for the new level. -/
def XPState.level_up (s : XPState) : XPState :=
  let lvl := s.current_level + 1
  { current_level := lvl
    current_xp := s.current_xp - s.xp_to_next_level
    xp_to_next_level := xp_threshold lvl }

/-- While-loop of XPSystem.update (lines 48-50): repeat _level_up while
current_xp ≥ xp_to_next_level. The Python loop terminates because every
threshold is at least 10; the fuel bound current_xp + 1 is sufficient
whenever thresholds stay positive (lemma run_level_ups_fixpoint). -/
def run_level_ups : ℕ → XPState → XPState
  | 0, s => s
  | fuel + 1, s =>
    if s.xp_to_next_level ≤ s.current_xp then run_level_ups fuel s.level_up else s

/-- XP-award part of XPSystem.update (lines 44-50): if any XP was
collected this frame, add it and process level-ups. -/
def XPState.add_xp (s : XPState) (collected_xp : ℕ) : XPState :=
  if 0 < collected_xp then
    let s1 := { s with current_xp := s.current_xp + collected_xp }
    run_level_ups (s1.current_xp + 1) s1
  else s

/-! ## Upgrade system (src/systems/upgrade_system.py, src/upgrades/)

UpgradeSystem.generate_choices invokes upgrade.can_apply(player) with a
single argument. Of the catalog built by _initialize_upgrades, only
WeaponLevelUpgrade.can_apply has signature (self, player);
StatUpgrade.can_apply and NewWeaponUpgrade.can_apply are declared
(self, player, weapons), so CPython raises TypeError (missing positional
argument) as soon as the filtering comprehension reaches them. Raising is
embedded with Except. -/

inductive WeaponClass
  | basic_weapon
  | spread_weapon
  | laser_weapon
  deriving DecidableEq, Repr

/-- Weapon held in a slot: its class and level (1..8). -/
structure WeaponInst where
  wclass : WeaponClass
  level : ℕ
  deriving DecidableEq, Repr

/-- Projection of the player used by the upgrade filter: the weapon slots
(None = empty slot). -/
structure UpgradePlayer where
  weapon_slots : List (Option WeaponInst)
  deriving DecidableEq, Repr

inductive PyError
  | type_error
  deriving DecidableEq, Repr

/-- Catalog entries built by UpgradeSystem._initialize_upgrades
(upgrade_system.py lines 19-57). In the new_weapon constructor the call
site passes NewWeaponUpgrade(BasicWeapon, "Basic Weapon") while __init__
is declared (self, weapon_name, weapon_class), so the weapon_name field
receives the class and the weapon_class field the display string. -/
inductive Upgrade
  | weapon_level (weapon_class : Option WeaponClass)
  | stat (stat_attribute : String) (amount : ℚ) (is_percentage : Bool)
  | new_weapon (weapon_name : WeaponClass) (weapon_class : String)
  deriving DecidableEq, Repr

/-- The catalog built by UpgradeSystem._initialize_upgrades, in order. -/
def available_upgrades : List Upgrade :=
  [ .weapon_level none,
    .stat "speed" 20 false,
    .stat "xp_pickup_range" 10 false,
    .stat "max_health" 20 false,
    .stat "attack_speed_multiplier" (3/10) true,
    .stat "hp_regen" 1 false,
    .new_weapon .basic_weapon "Basic Weapon",
    .new_weapon .spread_weapon "Spread Shot",
    .new_weapon .laser_weapon "Laser Weapon" ]

/-- WeaponLevelUpgrade.can_apply (weapon_level_upgrade.py lines 30-57):
weapons of the non-empty slots; False if none; with a specific class,
some weapon of that class below level 8; otherwise some weapon below
level 8. -/
def weapon_level_can_apply (p : UpgradePlayer) (wc : Option WeaponClass) : Bool :=
  let weapons := p.weapon_slots.filterMap id
  if weapons.isEmpty then false
  else
    match wc with
    | some c => weapons.any fun w => decide (w.wclass = c) && decide (w.level < 8)
    | none => weapons.any fun w => decide (w.level < 8)

/-- Result of the call upgrade.can_apply(player) made by generate_choices
(upgrade_system.py line 74): the bound method of WeaponLevelUpgrade takes
exactly one argument and runs; those of StatUpgrade and NewWeaponUpgrade
require (player, weapons), so the call itself raises TypeError. -/
def call_can_apply_one_arg (u : Upgrade) (p : UpgradePlayer) : Except PyError Bool :=
  match u with
  | .weapon_level wc => .ok (weapon_level_can_apply p wc)
  | .stat _ _ _ => .error .type_error
  | .new_weapon _ _ => .error .type_error

/-- The filtering list comprehension of generate_choices (lines 71-75):
evaluated left to right, the first raising element aborts the call. -/
def filter_valid_upgrades (p : UpgradePlayer) : List Upgrade → Except PyError (List Upgrade)
  | [] => .ok []
  | u :: rest => do
    let b ← call_can_apply_one_arg u p
    let r ← filter_valid_upgrades p rest
    pure (if b then u :: r else r)

/-- UpgradeSystem.generate_choices (lines 59-82). random.sample is
abstracted by the sample argument. -/
def generate_choices (sample : List Upgrade → ℕ → List Upgrade)
    (p : UpgradePlayer) (num_choices : ℕ) : Except PyError (List Upgrade) := do
  let valid ← filter_valid_upgrades p available_upgrades
  if valid.length ≤ num_choices then pure valid
  else pure (sample valid num_choices)

/-! ## Event bus (src/systems/events/event_bus.py)

A callback is embedded by its outcomes: call_with_event is the result of
callback(event_data), call_no_args the result of callback() (the retry
that _safe_call makes when the first call raises TypeError). Exceptions
are Except errors; a total Lean function cannot propagate one, mirroring
that _safe_call catches everything it retries. -/

structure Callback where
  id : ℕ
  call_with_event : Except PyError Unit
  call_no_args : Except PyError Unit

/-- EventBus state: regular and one-shot subscriber lists for one event
type, in subscription order. -/
structure EventBus where
  subscribers : List Callback
  once_subscribers : List Callback

/-- EventBus._safe_call (event_bus.py lines 154-172): call the callback
with the event data; on TypeError retry without arguments; any remaining
exception is caught and logged (returned), never propagated. -/
def safe_call (cb : Callback) : Option PyError :=
  match cb.call_with_event with
  | .ok _ => none
  | .error .type_error =>
    match cb.call_no_args with
    | .ok _ => none
    | .error e => some e

/-- Dispatch loop of EventBus.emit over one subscriber list (lines
142-149): each callback is passed to _safe_call in order; returns the ids
invoked in order and the caught-and-logged errors. -/
def emit_to_list : List Callback → List ℕ × List PyError
  | [] => ([], [])
  | cb :: rest =>
    let r := emit_to_list rest
    (cb.id :: r.1, (match safe_call cb with | some e => [e] | none => []) ++ r.2)

/-- EventBus.emit (lines 119-152): iterates over a copy of the regular
subscriber list, then the one-shot list, then clears the one-shot list.
Returns the new bus, the invoked callback ids in order, and the errors
caught at the bus. -/
def emit (bus : EventBus) : EventBus × List ℕ × List PyError :=
  let r1 := emit_to_list bus.subscribers
  let r2 := emit_to_list bus.once_subscribers
  ({ bus with once_subscribers := [] }, r1.1 ++ r2.1, r1.2 ++ r2.2)

/-! ## Projectile-enemy kill resolution (src/game_engine.py lines 222-238)

The engine's _check_projectile_collisions loop: for each projectile, the
first colliding enemy takes the projectile's damage; if it dies the
kill counter is incremented, the wave system is notified, one drop roll
(PickupManager.spawn_from_enemy) spawns a pickup and the enemy is removed;
the projectile is consumed either way. The loop body contains no event-bus
emission, so the enemy_killed_events counter is never incremented.
Geometric collision (Projectile.collides_with) is abstracted by the
collides argument. -/

structure Projectile where
  damage : ℚ
  deriving DecidableEq, Repr

/-- Frame-side effects of the kill-resolution loop. -/
structure EngineStats where
  enemies_killed : ℕ
  wave_kill_notifications : ℕ
  drop_rolls : ℕ
  enemy_killed_events : ℕ
  deriving DecidableEq, Repr

def EngineStats.init : EngineStats := ⟨0, 0, 0, 0⟩

/-- Inner loop over enemies for one projectile: damage the first enemy the
projectile collides with, then break. Returns the updated enemy list, the
updated stats, and whether the projectile hit (and is removed). -/
def projectile_hit_enemies (collides : Projectile → Enemy → Bool) (pr : Projectile) :
    List Enemy → EngineStats → List Enemy × EngineStats × Bool
  | [], st => ([], st, false)
  | e :: rest, st =>
    if collides pr e then
      let r := e.take_damage pr.damage
      if r.2 then
        (rest,
         { st with enemies_killed := st.enemies_killed + 1,
                   wave_kill_notifications := st.wave_kill_notifications + 1,
                   drop_rolls := st.drop_rolls + 1 }, true)
      else (r.1 :: rest, st, true)
    else
      let rec_r := projectile_hit_enemies collides pr rest st
      (e :: rec_r.1, rec_r.2.1, rec_r.2.2)

/-- GameEngine._check_projectile_collisions: outer loop over the
projectiles, each processed against the current enemy list. -/
def check_projectile_collisions (collides : Projectile → Enemy → Bool) :
    List Projectile → List Enemy → EngineStats → List Enemy × EngineStats
  | [], enemies, st => (enemies, st)
  | pr :: prs, enemies, st =>
    let r := projectile_hit_enemies collides pr enemies st
    check_projectile_collisions collides prs r.1 r.2.1

/-! ## Helper lemmas -/

/-- Every XP threshold is at least the base requirement of 10. -/
theorem xp_threshold_ge (lvl : ℕ) : 10 ≤ xp_threshold lvl := by
  unfold xp_threshold
  have hpow : 2 ^ (lvl - 1) ≤ 3 ^ (lvl - 1) :=
    Nat.pow_le_pow_left (by norm_num) (lvl - 1)
  have hpos : 0 < 2 ^ (lvl - 1) := Nat.pos_pow_of_pos _ (by norm_num)
  exact (Nat.le_div_iff_mul_le hpos).mpr (by nlinarith)

/-- With positive thresholds, fuel exceeding the current XP is enough for
the level-up loop to reach its fixpoint: the final XP is below the final
threshold. -/
theorem run_level_ups_fixpoint (fuel : ℕ) : ∀ s : XPState, s.current_xp < fuel →
    1 ≤ s.xp_to_next_level →
    (run_level_ups fuel s).current_xp < (run_level_ups fuel s).xp_to_next_level := by
  induction fuel with
  | zero => intro s h _; omega
  | succ n ih =>
    intro s hfuel hpos
    unfold run_level_ups
    split_ifs with h
    · refine ih _ ?_ ?_
      · simp only [XPState.level_up]; omega
      · have := xp_threshold_ge (s.current_level + 1)
        simp only [XPState.level_up]; omega
    · omega

/-- The slow-timer step leaves the dash fields unchanged. -/
theorem player_update_slow_fields (p : Player) (dt : ℚ) :
    (p.update_slow dt).is_dashing = p.is_dashing ∧
    (p.update_slow dt).invulnerable = p.invulnerable ∧
    (p.update_slow dt).dash_timer = p.dash_timer ∧
    (p.update_slow dt).dash_cooldown_time = p.dash_cooldown_time := by
  unfold Player.update_slow
  dsimp only
  split_ifs <;> exact ⟨rfl, rfl, rfl, rfl⟩

/-- The damage-immunity timer step leaves the dash fields unchanged. -/
theorem player_update_immunity_fields (p : Player) (dt : ℚ) :
    (p.update_immunity dt).is_dashing = p.is_dashing ∧
    (p.update_immunity dt).invulnerable = p.invulnerable ∧
    (p.update_immunity dt).dash_timer = p.dash_timer ∧
    (p.update_immunity dt).dash_cooldown_time = p.dash_cooldown_time := by
  unfold Player.update_immunity
  dsimp only
  split_ifs <;> exact ⟨rfl, rfl, rfl, rfl⟩

/-- The bomb-cooldown step leaves the dash fields unchanged. -/
theorem player_update_bomb_fields (p : Player) (dt : ℚ) :
    (p.update_bomb_cooldown dt).is_dashing = p.is_dashing ∧
    (p.update_bomb_cooldown dt).invulnerable = p.invulnerable ∧
    (p.update_bomb_cooldown dt).dash_timer = p.dash_timer ∧
    (p.update_bomb_cooldown dt).dash_cooldown_time = p.dash_cooldown_time := by
  unfold Player.update_bomb_cooldown
  split_ifs <;> exact ⟨rfl, rfl, rfl, rfl⟩

/-- The dash-cooldown step leaves the dash flags and timer unchanged. -/
theorem player_update_dash_cd_fields (p : Player) (dt : ℚ) :
    (p.update_dash_cooldown dt).is_dashing = p.is_dashing ∧
    (p.update_dash_cooldown dt).invulnerable = p.invulnerable ∧
    (p.update_dash_cooldown dt).dash_timer = p.dash_timer ∧
    (p.update_dash_cooldown dt).dash_cooldown_time = p.dash_cooldown_time := by
  unfold Player.update_dash_cooldown
  split_ifs <;> exact ⟨rfl, rfl, rfl, rfl⟩

/-- Timer steps of Player.update that run before the dash step leave the
dash-related fields unchanged. -/
theorem player_pre_dash_fields (p : Player) (dt : ℚ) :
    let q := (((p.update_slow dt).update_immunity dt).update_bomb_cooldown
      dt).update_dash_cooldown dt
    q.is_dashing = p.is_dashing ∧ q.invulnerable = p.invulnerable ∧
    q.dash_timer = p.dash_timer ∧ q.dash_cooldown_time = p.dash_cooldown_time := by
  obtain ⟨a1, b1, c1, d1⟩ := player_update_slow_fields p dt
  obtain ⟨a2, b2, c2, d2⟩ := player_update_immunity_fields (p.update_slow dt) dt
  obtain ⟨a3, b3, c3, d3⟩ :=
    player_update_bomb_fields ((p.update_slow dt).update_immunity dt) dt
  obtain ⟨a4, b4, c4, d4⟩ := player_update_dash_cd_fields
    (((p.update_slow dt).update_immunity dt).update_bomb_cooldown dt) dt
  exact ⟨by rw [a4, a3, a2, a1], by rw [b4, b3, b2, b1], by rw [c4, c3, c2, c1],
    by rw [d4, d3, d2, d1]⟩

/-- Regeneration leaves the dash flags unchanged. -/
theorem player_regen_fields (p : Player) (dt : ℚ) :
    (p.update_regen dt).is_dashing = p.is_dashing ∧
    (p.update_regen dt).invulnerable = p.invulnerable := by
  unfold Player.update_regen
  split_ifs <;> exact ⟨rfl, rfl⟩

/-- Dash step of Player.update on an expiring dash: the dash and its
invulnerability end. -/
theorem player_update_dash_expire (p : Player) (dt : ℚ) (hd : p.is_dashing = true)
    (ht : p.dash_timer ≤ dt) :
    (p.update_dash dt).is_dashing = false ∧ (p.update_dash dt).invulnerable = false := by
  unfold Player.update_dash
  rw [hd]
  simp only [if_true]
  rw [if_pos (by linarith : p.dash_timer - dt ≤ 0)]
  exact ⟨rfl, rfl⟩

/-- In every reachable player state, an active dash implies the
invulnerable flag: the two are raised together by try_dash and cleared
together when the dash timer expires, and no other operation lowers
invulnerable while a dash is active. -/
theorem player_dash_invuln {p : Player} (h : PlayerReach p) :
    p.is_dashing = true → p.invulnerable = true := by
  induction h with
  | init => intro hh; simp [Player.init] at hh
  | update dt hp ih =>
    rename_i p0
    have hpre := player_pre_dash_fields p0 dt
    dsimp only at hpre
    have hreg := player_regen_fields ((((p0.update_slow dt).update_immunity
      dt).update_bomb_cooldown dt).update_dash_cooldown dt |>.update_dash dt) dt
    intro hh
    rw [show Player.update p0 dt = ((((p0.update_slow dt).update_immunity
      dt).update_bomb_cooldown dt).update_dash_cooldown dt |>.update_dash
      dt).update_regen dt from rfl] at hh ⊢
    rw [hreg.1] at hh
    rw [hreg.2]
    revert hh
    unfold Player.update_dash
    dsimp only
    split_ifs with h1 h2
    · intro hh; simp at hh
    · intro hh; exact hpre.2.1 ▸ (ih (hpre.1 ▸ h1))
    · intro hh; exact hpre.2.1 ▸ (ih (hpre.1 ▸ hh))
  | try_dash dx dy hp ih =>
    unfold Player.try_dash
    split_ifs <;> simp_all
  | take_damage d hp ih =>
    unfold Player.take_damage
    dsimp only
    split_ifs <;> simp_all
  | take_projectile_damage d hp ih =>
    unfold Player.take_projectile_damage
    dsimp only
    split_ifs <;> simp_all
  | heal a hp ih => simpa [Player.heal] using ih
  | apply_slow d s hp ih => simpa [Player.apply_slow] using ih

/-- Every reachable wave state satisfies the phase invariant. -/
theorem wave_reach_inv {s : WaveState} (h : WaveReach s) : WaveInv s := by
  induction h with
  | init => left; exact ⟨rfl, rfl⟩
  | update dt n hs ih =>
    rename_i s0
    unfold WaveState.update
    dsimp only
    split_ifs with h1 h2 h3 h4 h5
    · right; exact ⟨rfl, rfl, rfl⟩
    · rcases ih with ⟨ha, hb⟩ | ⟨ha, hb, hc⟩
      · left; exact ⟨ha, hb⟩
      · rw [hb] at h1; cases h1
    · left; exact ⟨rfl, rfl⟩
    · rcases ih with ⟨ha, hb⟩ | ⟨ha, hb, hc⟩
      · left; exact ⟨ha, hb⟩
      · right; exact ⟨ha, hb, hc⟩
    · rcases ih with ⟨ha, hb⟩ | ⟨ha, hb, hc⟩
      · left; exact ⟨ha, hb⟩
      · right; exact ⟨ha, hb, hc⟩
    · exact ih
  | on_enemy_killed hs ih =>
    rcases ih with ⟨ha, hb⟩ | ⟨ha, hb, hc⟩
    · left; exact ⟨ha, hb⟩
    · right; exact ⟨ha, hb, hc⟩

/-- Membership in an integer cell range. -/
theorem mem_cell_range {lo hi z : ℤ} : z ∈ cell_range lo hi ↔ lo ≤ z ∧ z ≤ hi := by
  unfold cell_range
  simp only [List.mem_map, List.mem_range]
  constructor
  · rintro ⟨i, hlt, rfl⟩; omega
  · rintro ⟨h1, h2⟩; exact ⟨(z - lo).toNat, by omega, by omega⟩

/-- Membership in the covered-cell list of a circle. -/
theorem mem_get_cells_for_entity {cs : ℚ} {p : Vec2} {r : ℚ} {c : ℤ × ℤ} :
    c ∈ get_cells_for_entity cs p r ↔
      (⌊(p.x - r) / cs⌋ ≤ c.1 ∧ c.1 ≤ ⌊(p.x + r) / cs⌋) ∧
      (⌊(p.y - r) / cs⌋ ≤ c.2 ∧ c.2 ≤ ⌊(p.y + r) / cs⌋) := by
  unfold get_cells_for_entity
  dsimp only
  simp only [List.mem_flatMap, List.mem_map, mem_cell_range]
  constructor
  · rintro ⟨cx, hcx, cy, hcy, rfl⟩; exact ⟨hcx, hcy⟩
  · rintro ⟨hx, hy⟩
    exact ⟨c.1, hx, c.2, hy, rfl⟩

/-- Monotonicity of the cell-index computation in the coordinate. -/
theorem floor_div_le_floor_div {a b cs : ℚ} (hcs : 0 < cs) (h : a ≤ b) :
    ⌊a / cs⌋ ≤ ⌊b / cs⌋ :=
  Int.floor_le_floor (by gcongr)

/-! ## Claim theorems -/

/-- C3: XP multi-level-up. The thresholds are 10, 15, 22, ...; awarding
47 XP from a fresh level-1 state in one update reaches exactly level 4
with 0 XP left, 46 leaves level 3 with remainder 21, 48 leaves level 4
with remainder 1; and after any single award the loop has consumed every
reachable threshold (remaining XP is below the current threshold). -/
theorem xp_multi_level_up :
    XPState.add_xp XPState.init 47 = ⟨4, 0, 33⟩ ∧
    XPState.add_xp XPState.init 46 = ⟨3, 21, 22⟩ ∧
    XPState.add_xp XPState.init 48 = ⟨4, 1, 33⟩ ∧
    xp_threshold 1 = 10 ∧ xp_threshold 2 = 15 ∧ xp_threshold 3 = 22 ∧
    ∀ gain : ℕ, (XPState.init.add_xp gain).current_xp <
      (XPState.init.add_xp gain).xp_to_next_level := by
  refine ⟨by decide, by decide, by decide, by decide, by decide, by decide, ?_⟩
  intro gain
  unfold XPState.add_xp
  split_ifs with h
  · exact run_level_ups_fixpoint _ _ (Nat.lt_succ_self _) (by norm_num : (1 : ℕ) ≤ 10)
  · decide

/-- C5 counterexample: in the reachable state right after a projectile
hit, damage_immunity is raised and the dash invulnerability is not, yet
take_damage (contact damage) still reduces health (from 95 to 85): the
damage-immunity flag does not suppress take_damage. -/
theorem immunity_contact_damage_counterexample :
    (Player.init.take_projectile_damage 5).1.damage_immunity = true ∧
    (Player.init.take_projectile_damage 5).1.invulnerable = false ∧
    ¬(((Player.init.take_projectile_damage 5).1.take_damage 10).1.health =
        (Player.init.take_projectile_damage 5).1.health) := by
  norm_num [Player.take_projectile_damage, Player.take_damage, Player.init]

/-- C5 amended: the invulnerable (dash) flag suppresses both take_damage
and take_projectile_damage for every damage amount; the damage_immunity
flag suppresses only take_projectile_damage (take_damage applies contact
damage regardless of damage_immunity). -/
theorem invulnerability_sources (p : Player) (d : ℚ) :
    (p.invulnerable = true →
      (p.take_damage d).1 = p ∧ (p.take_projectile_damage d).1 = p) ∧
    (p.damage_immunity = true → (p.take_projectile_damage d).1 = p) := by
  constructor
  · intro h
    constructor
    · unfold Player.take_damage
      rw [if_pos h]
    · unfold Player.take_projectile_damage
      rw [if_pos (by simp [h] : (p.invulnerable || p.damage_immunity) = true)]
  · intro h
    unfold Player.take_projectile_damage
    rw [if_pos (by simp [h] : (p.invulnerable || p.damage_immunity) = true)]

/-- Witness for the amended C5 at concrete reachable states: the state
after a projectile hit is immune to a second projectile hit, and a
dashing player is immune to contact damage. -/
theorem invulnerability_sources_witness :
    (Player.init.take_projectile_damage 5).1.damage_immunity = true ∧
    ((Player.init.take_projectile_damage 5).1.take_projectile_damage 10).1 =
      (Player.init.take_projectile_damage 5).1 ∧
    (Player.init.try_dash 1 0).1.invulnerable = true ∧
    ((Player.init.try_dash 1 0).1.take_damage 10).1 = (Player.init.try_dash 1 0).1 := by
  have h1 := invulnerability_sources (Player.init.take_projectile_damage 5).1 10
  have h2 := invulnerability_sources (Player.init.try_dash 1 0).1 10
  have ha : (Player.init.take_projectile_damage 5).1.damage_immunity = true := by
    norm_num [Player.take_projectile_damage, Player.init]
  have hb : (Player.init.try_dash 1 0).1.invulnerable = true := by
    norm_num [Player.try_dash, Player.init]
  exact ⟨ha, h1.2 ha, hb, (h2.1 hb).1⟩

/-- C6 (code defect): generate_choices raises TypeError for every player
state and choice count, because it calls upgrade.can_apply(player) with
one argument while StatUpgrade.can_apply and NewWeaponUpgrade.can_apply
require (player, weapons); the catalog always contains such upgrades, so
the filtering comprehension raises before any choice list is produced. -/
theorem generate_choices_raises_type_error
    (sample : List Upgrade → ℕ → List Upgrade) (p : UpgradePlayer) (n : ℕ) :
    generate_choices sample p n = .error .type_error := rfl

/-- C7: health clamping. From any state with 0 ≤ health ≤ max_health,
applying nonnegative contact damage, projectile damage or healing to the
player, or nonnegative damage to an enemy, keeps 0 ≤ health ≤ max_health. -/
theorem health_clamping (p : Player) (e : Enemy) (d : ℚ) (hd : 0 ≤ d)
    (hp0 : 0 ≤ p.health) (hp1 : p.health ≤ p.max_health)
    (he0 : 0 ≤ e.health) (he1 : e.health ≤ e.max_health) :
    (0 ≤ (p.take_damage d).1.health ∧
      (p.take_damage d).1.health ≤ (p.take_damage d).1.max_health) ∧
    (0 ≤ (p.take_projectile_damage d).1.health ∧
      (p.take_projectile_damage d).1.health ≤ (p.take_projectile_damage d).1.max_health) ∧
    (0 ≤ (p.heal d).health ∧ (p.heal d).health ≤ (p.heal d).max_health) ∧
    (0 ≤ (e.take_damage d).1.health ∧
      (e.take_damage d).1.health ≤ (e.take_damage d).1.max_health) := by
  refine ⟨?_, ?_, ?_, ?_⟩
  · unfold Player.take_damage
    dsimp only
    split_ifs <;> exact ⟨by dsimp only; linarith, by dsimp only; linarith⟩
  · unfold Player.take_projectile_damage
    dsimp only
    split_ifs <;> exact ⟨by dsimp only; linarith, by dsimp only; linarith⟩
  · unfold Player.heal
    exact ⟨le_min (by linarith) (by linarith), min_le_left _ _⟩
  · unfold Enemy.take_damage
    dsimp only
    split_ifs <;> exact ⟨by dsimp only; linarith, by dsimp only; linarith⟩

/-- Witness for C7 at the initial player (health 100/100) and an enemy at
50/50, damage 30. -/
theorem health_clamping_witness :
    (0 ≤ (Player.init.take_damage 30).1.health ∧
      (Player.init.take_damage 30).1.health ≤ (Player.init.take_damage 30).1.max_health) ∧
    (0 ≤ (Enemy.take_damage ⟨50, 50, false⟩ 30).1.health ∧
      (Enemy.take_damage ⟨50, 50, false⟩ 30).1.health ≤
        (Enemy.take_damage ⟨50, 50, false⟩ 30).1.max_health) := by
  have h := health_clamping Player.init ⟨50, 50, false⟩ 30 (by norm_num)
    (by norm_num [Player.init]) (by norm_num [Player.init]) (by norm_num) (by norm_num)
  exact ⟨h.1, h.2.2.2⟩

/-- C8 counterexample: with an enemy at 50/50 health and two colliding
projectiles of damage 30 each, the scenario's health values hold (20
after the first hit, 0 and dead after the second) and the kill performs
exactly one drop roll, but the kill-handling loop of
GameEngine._check_projectile_collisions emits no ENEMY_KILLED event at
all (count 0, not 1): nothing in the engine emits on the event bus. -/
theorem enemy_death_event_counterexample :
    Enemy.take_damage ⟨50, 50, false⟩ 30 = (⟨20, 50, false⟩, false) ∧
    Enemy.take_damage ⟨20, 50, false⟩ 30 = (⟨0, 50, true⟩, true) ∧
    (check_projectile_collisions (fun _ _ => true) [⟨30⟩, ⟨30⟩] [⟨50, 50, false⟩]
        EngineStats.init).2.drop_rolls = 1 ∧
    ¬((check_projectile_collisions (fun _ _ => true) [⟨30⟩, ⟨30⟩] [⟨50, 50, false⟩]
        EngineStats.init).2.enemy_killed_events = 1) := by
  norm_num [check_projectile_collisions, projectile_hit_enemies, Enemy.take_damage,
    EngineStats.init]

/-- C8 amended: the 50-health enemy survives the first 30-damage hit at
health 20, dies on the second with health clamped to exactly 0, and the
kill-handling step performs exactly one kill count, one wave-system kill
notification and one drop roll, removes the enemy, and emits zero
ENEMY_KILLED events (the engine does not use the event bus). -/
theorem enemy_death_resolution :
    Enemy.take_damage ⟨50, 50, false⟩ 30 = (⟨20, 50, false⟩, false) ∧
    Enemy.take_damage ⟨20, 50, false⟩ 30 = (⟨0, 50, true⟩, true) ∧
    check_projectile_collisions (fun _ _ => true) [⟨30⟩, ⟨30⟩] [⟨50, 50, false⟩]
      EngineStats.init = ([], ⟨1, 1, 1, 0⟩) := by
  norm_num [check_projectile_collisions, projectile_hit_enemies, Enemy.take_damage,
    EngineStats.init]

/-- C9: event-bus error isolation and order. One emit call invokes every
subscriber present at the start of the call (the regular list, then the
one-shot list), each exactly once in subscription order, whatever each
callback raises; every raised exception is caught and logged at the bus
(emit is total, so nothing propagates to the emitter); the regular
subscriber list is unchanged and the one-shot list is cleared. -/
theorem emit_error_isolation_order (bus : EventBus) :
    (emit bus).2.1 =
      bus.subscribers.map Callback.id ++ bus.once_subscribers.map Callback.id ∧
    (emit bus).2.2 =
      (bus.subscribers ++ bus.once_subscribers).filterMap safe_call ∧
    (emit bus).1.subscribers = bus.subscribers ∧
    (emit bus).1.once_subscribers = [] := by
  have key : ∀ l : List Callback, (emit_to_list l).1 = l.map Callback.id ∧
      (emit_to_list l).2 = l.filterMap safe_call := by
    intro l
    induction l with
    | nil => exact ⟨rfl, rfl⟩
    | cons cb rest ih =>
      refine ⟨by simp [emit_to_list, ih.1], ?_⟩
      simp only [emit_to_list, ih.2, List.filterMap_cons]
      cases safe_call cb <;> simp
  refine ⟨?_, ?_, rfl, rfl⟩
  · simp [emit, (key bus.subscribers).1, (key bus.once_subscribers).1]
  · simp [emit, (key bus.subscribers).2, (key bus.once_subscribers).2,
      List.filterMap_append]

/-- C10: try_dash succeeds exactly when no dash is active, the cooldown
has fully elapsed, stamina covers the cost and the direction is nonzero;
a failed attempt leaves the whole (modeled) player state unchanged; a
successful one consumes exactly dash_cost stamina and raises is_dashing
and invulnerable. -/
theorem try_dash_atomicity (p : Player) (dx dy : ℚ) :
    ((p.try_dash dx dy).2 = true ↔
      (p.is_dashing = false ∧ p.dash_cooldown ≤ 0 ∧ p.dash_cost ≤ p.stamina ∧
        ¬(dx = 0 ∧ dy = 0))) ∧
    ((p.try_dash dx dy).2 = false → (p.try_dash dx dy).1 = p) ∧
    ((p.try_dash dx dy).2 = true →
      (p.try_dash dx dy).1.stamina = p.stamina - p.dash_cost ∧
      (p.try_dash dx dy).1.is_dashing = true ∧
      (p.try_dash dx dy).1.invulnerable = true) := by
  unfold Player.try_dash
  split_ifs with h1 h2 h3
  · simp only [Bool.or_eq_true, decide_eq_true_eq] at h1
    refine ⟨⟨fun h => by simp at h, fun hr => ?_⟩, fun _ => rfl, fun h => by simp at h⟩
    exfalso
    rcases h1 with h | h
    · rw [hr.1] at h; cases h
    · linarith [hr.2.1]
  · exact ⟨⟨fun h => by simp at h, fun hr => absurd hr.2.2.1 (not_le.mpr h2)⟩,
      fun _ => rfl, fun h => by simp at h⟩
  · exact ⟨⟨fun h => by simp at h, fun hr => absurd h3 hr.2.2.2⟩,
      fun _ => rfl, fun h => by simp at h⟩
  · simp only [Bool.or_eq_true, decide_eq_true_eq, not_or, not_lt] at h1
    exact ⟨iff_of_true rfl ⟨by simpa using h1.1, h1.2, not_lt.mp h2, h3⟩,
      fun h => by simp at h, fun _ => ⟨rfl, rfl, rfl⟩⟩

/-- Witness for C10: on the freshly initialized player (stamina 30, cost
30, no cooldown), try_dash 1 0 succeeds and spends all stamina. -/
theorem try_dash_atomicity_witness :
    (Player.init.try_dash 1 0).2 = true ∧
    (Player.init.try_dash 1 0).1.stamina = Player.init.stamina - Player.init.dash_cost ∧
    (Player.init.try_dash 0 0).2 = false ∧
    (Player.init.try_dash 0 0).1 = Player.init := by
  have h1 := try_dash_atomicity Player.init 1 0
  have h2 := try_dash_atomicity Player.init 0 0
  have hsucc : (Player.init.try_dash 1 0).2 = true :=
    h1.1.mpr ⟨rfl, by norm_num [Player.init], by norm_num [Player.init], by simp⟩
  have hfail : (Player.init.try_dash 0 0).2 = false := by
    by_contra hc
    exact ((h2.1.mp (by simpa using hc)).2.2.2 ⟨rfl, rfl⟩)
  exact ⟨hsucc, (h1.2.2 hsucc).1, hfail, h2.2.1 hfail⟩

/-- C4: dash invulnerability. In every reachable player state, while
is_dashing is raised take_damage applies no damage (the state is returned
unchanged and the call reports no death); and after the Player.update
step in which the dash timer expires (dash_timer ≤ dt), both is_dashing
and invulnerable are cleared and take_damage applies damage normally
(health becomes max 0 (health - damage)). The proof uses the reachable
invariant that is_dashing implies invulnerable. -/
theorem dash_invulnerability {p : Player} (hp : PlayerReach p) (d dt : ℚ) :
    (p.is_dashing = true → p.take_damage d = (p, false)) ∧
    (p.is_dashing = true → p.dash_timer ≤ dt →
      (p.update dt).is_dashing = false ∧ (p.update dt).invulnerable = false ∧
      ((p.update dt).take_damage d).1.health = max 0 ((p.update dt).health - d)) := by
  constructor
  · intro hd
    unfold Player.take_damage
    rw [if_pos (player_dash_invuln hp hd)]
  · intro hd ht
    have hpre := player_pre_dash_fields p dt
    dsimp only at hpre
    have hexp := player_update_dash_expire
      ((((p.update_slow dt).update_immunity dt).update_bomb_cooldown
        dt).update_dash_cooldown dt) dt
      (hpre.1.trans hd) (by rw [hpre.2.2.1]; exact ht)
    have hreg := player_regen_fields ((((p.update_slow dt).update_immunity
      dt).update_bomb_cooldown dt).update_dash_cooldown dt |>.update_dash dt) dt
    have h1 : (p.update dt).is_dashing = false := hreg.1.trans hexp.1
    have h2 : (p.update dt).invulnerable = false := hreg.2.trans hexp.2
    refine ⟨h1, h2, ?_⟩
    unfold Player.take_damage
    rw [if_neg (by rw [h2]; exact Bool.false_ne_true)]
    dsimp only
    split_ifs with hle
    · exact (max_eq_left hle).symm
    · exact (max_eq_right (le_of_lt (not_le.mp hle))).symm

/-- Witness for C4: the player right after a successful dash (a reachable
state) takes no contact damage, and after an update of a full second (the
0.2s dash timer expires) contact damage applies normally again. -/
theorem dash_invulnerability_witness :
    (Player.init.try_dash 1 0).1.is_dashing = true ∧
    (Player.init.try_dash 1 0).1.take_damage 40 = ((Player.init.try_dash 1 0).1, false) ∧
    (((Player.init.try_dash 1 0).1.update 1).take_damage 40).1.health =
      max 0 (((Player.init.try_dash 1 0).1.update 1).health - 40) := by
  have h := dash_invulnerability (PlayerReach.try_dash 1 0 PlayerReach.init) 40 1
  have hd : (Player.init.try_dash 1 0).1.is_dashing = true := by
    norm_num [Player.try_dash, Player.init]
  have ht : (Player.init.try_dash 1 0).1.dash_timer ≤ 1 := by
    norm_num [Player.try_dash, Player.init]
  exact ⟨hd, h.1 hd, (h.2 hd ht).2.2⟩

/-- C2: wave completion. In every reachable wave state with an active
wave, one update step raises wave_complete exactly when the spawn quota
has been reached and the live enemy collection is empty; that transition
deactivates the wave and starts the 5-second rest period; and no update
step spawns an enemy once enemies_spawned has reached enemies_to_spawn,
however much spawn-timer budget remains. -/
theorem wave_completion_iff {s : WaveState} (hs : WaveReach s) (dt : ℚ) (n : ℕ) :
    (s.wave_active = true →
      ((s.update dt n).1.wave_complete = true ↔
        (s.enemies_to_spawn ≤ s.enemies_spawned ∧ n = 0))) ∧
    (s.wave_active = true → s.enemies_to_spawn ≤ s.enemies_spawned → n = 0 →
      s.wave_complete = false ∧ (s.update dt n).1.wave_complete = true ∧
      (s.update dt n).1.wave_active = false ∧ (s.update dt n).1.in_rest_period = true ∧
      (s.update dt n).1.rest_timer = 5) ∧
    (s.enemies_to_spawn ≤ s.enemies_spawned → (s.update dt n).2 = false) := by
  have inv := wave_reach_inv hs
  refine ⟨?_, ?_, ?_⟩
  · intro hact
    rcases inv with ⟨ha, hb⟩ | ⟨ha, hb, hc⟩
    · rw [hact] at hb; cases hb
    · by_cases hq : s.enemies_to_spawn ≤ s.enemies_spawned ∧ n = 0
      · have hupd : s.update dt n = (s.complete_wave, false) := by
          unfold WaveState.update
          rw [if_neg (by simp [hb]), if_pos ⟨hact, by simp [hc], hq.1, hq.2⟩]
        rw [hupd]
        exact iff_of_true rfl hq
      · have hcomp : (s.update dt n).1.wave_complete = s.wave_complete := by
          unfold WaveState.update
          rw [if_neg (by simp [hb]),
            if_neg (fun hcond => hq ⟨hcond.2.2.1, hcond.2.2.2⟩)]
          dsimp only
          split_ifs <;> rfl
        rw [hcomp, hc]
        exact iff_of_false (by simp) hq
  · intro hact hq hn
    rcases inv with ⟨ha, hb⟩ | ⟨ha, hb, hc⟩
    · rw [hact] at hb; cases hb
    · have hupd : s.update dt n = (s.complete_wave, false) := by
        unfold WaveState.update
        rw [if_neg (by simp [hb]), if_pos ⟨hact, by simp [hc], hq, hn⟩]
      rw [hupd]
      exact ⟨hc, rfl, rfl, rfl, rfl⟩
  · intro hq
    unfold WaveState.update
    dsimp only
    split_ifs with h1 h2 h3 h4 h5
    · rfl
    · rfl
    · rfl
    · exact absurd h4.2 (not_lt.mpr hq)
    · exact absurd h4.2 (not_lt.mpr hq)
    · rfl

/-- Witness for C2 at the initial (reachable) wave state, whose quota 0
is already met: the step spawns nothing even with a large dt. -/
theorem wave_completion_iff_witness :
    WaveState.init.enemies_to_spawn ≤ WaveState.init.enemies_spawned ∧
    (WaveState.init.update 1 5).2 = false := by
  have h := wave_completion_iff WaveReach.init 1 5
  exact ⟨le_refl 0, h.2.2 (le_refl 0)⟩

/-- C1: spatial grid broad-phase completeness. For every entity inserted
into the grid with a nonnegative radius, and every query circle with
nonnegative radius, if the entity circle (position and inserted radius)
intersects the query circle, then the entity is a member of the set
returned by get_nearby_entities. (The converse need not hold: the query
may return extra entities.) -/
theorem grid_query_completeness {α : Type} [DecidableEq α] (cell_size : ℚ)
    (hcs : 0 < cell_size) (g : SpatialGrid α) (e : GridEntry α) (he : e ∈ g)
    (hrad : 0 ≤ e.rad) (qpos : Vec2) (qrad : ℚ) (hqrad : 0 ≤ qrad)
    (hint : (e.pos.x - qpos.x) ^ 2 + (e.pos.y - qpos.y) ^ 2 ≤ (e.rad + qrad) ^ 2) :
    e.ent ∈ get_nearby_entities cell_size g qpos qrad := by
  have hR : 0 ≤ e.rad + qrad := by linarith
  have hdx1 : e.pos.x - qpos.x ≤ e.rad + qrad := by
    nlinarith [sq_nonneg (e.pos.y - qpos.y), sq_nonneg (e.pos.x - qpos.x - (e.rad + qrad))]
  have hdx2 : qpos.x - e.pos.x ≤ e.rad + qrad := by
    nlinarith [sq_nonneg (e.pos.y - qpos.y), sq_nonneg (e.pos.x - qpos.x + (e.rad + qrad))]
  have hdy1 : e.pos.y - qpos.y ≤ e.rad + qrad := by
    nlinarith [sq_nonneg (e.pos.x - qpos.x), sq_nonneg (e.pos.y - qpos.y - (e.rad + qrad))]
  have hdy2 : qpos.y - e.pos.y ≤ e.rad + qrad := by
    nlinarith [sq_nonneg (e.pos.x - qpos.x), sq_nonneg (e.pos.y - qpos.y + (e.rad + qrad))]
  set tx := max (e.pos.x - e.rad) (qpos.x - qrad) with htx
  set ty := max (e.pos.y - e.rad) (qpos.y - qrad) with hty
  have hex1 : ⌊(e.pos.x - e.rad) / cell_size⌋ ≤ ⌊tx / cell_size⌋ :=
    floor_div_le_floor_div hcs (le_max_left _ _)
  have hex2 : ⌊tx / cell_size⌋ ≤ ⌊(e.pos.x + e.rad) / cell_size⌋ :=
    floor_div_le_floor_div hcs (max_le (by linarith) (by linarith))
  have hqx1 : ⌊(qpos.x - qrad) / cell_size⌋ ≤ ⌊tx / cell_size⌋ :=
    floor_div_le_floor_div hcs (le_max_right _ _)
  have hqx2 : ⌊tx / cell_size⌋ ≤ ⌊(qpos.x + qrad) / cell_size⌋ :=
    floor_div_le_floor_div hcs (max_le (by linarith) (by linarith))
  have hey1 : ⌊(e.pos.y - e.rad) / cell_size⌋ ≤ ⌊ty / cell_size⌋ :=
    floor_div_le_floor_div hcs (le_max_left _ _)
  have hey2 : ⌊ty / cell_size⌋ ≤ ⌊(e.pos.y + e.rad) / cell_size⌋ :=
    floor_div_le_floor_div hcs (max_le (by linarith) (by linarith))
  have hqy1 : ⌊(qpos.y - qrad) / cell_size⌋ ≤ ⌊ty / cell_size⌋ :=
    floor_div_le_floor_div hcs (le_max_right _ _)
  have hqy2 : ⌊ty / cell_size⌋ ≤ ⌊(qpos.y + qrad) / cell_size⌋ :=
    floor_div_le_floor_div hcs (max_le (by linarith) (by linarith))
  unfold get_nearby_entities
  rw [List.mem_dedup, List.mem_flatMap]
  refine ⟨(⌊tx / cell_size⌋, ⌊ty / cell_size⌋), ?_, ?_⟩
  · exact mem_get_cells_for_entity.mpr ⟨⟨hqx1, hqx2⟩, ⟨hqy1, hqy2⟩⟩
  · rw [List.mem_map]
    refine ⟨e, ?_, rfl⟩
    rw [List.mem_filter]
    exact ⟨he, decide_eq_true
      (mem_get_cells_for_entity.mpr ⟨⟨hex1, hex2⟩, ⟨hey1, hey2⟩⟩)⟩

/-- Witness for C1 at cell_size 100: the entity circle at (0, 0) with
radius 10 and the query circle at (50, 0) with radius 45 intersect
(distance 50 ≤ 55), and the query returns the entity. -/
theorem grid_query_completeness_witness :
    (((0 : ℚ) - 50) ^ 2 + ((0 : ℚ) - 0) ^ 2 ≤ ((10 : ℚ) + 45) ^ 2) ∧
    (0 : ℕ) ∈ get_nearby_entities 100 (add_entity ([] : SpatialGrid ℕ) 0 ⟨0, 0⟩ 10)
      ⟨50, 0⟩ 45 := by
  refine ⟨by norm_num, ?_⟩
  exact grid_query_completeness 100 (by norm_num) _ ⟨0, ⟨0, 0⟩, 10⟩
    (by simp [add_entity]) (by norm_num) ⟨50, 0⟩ 45 (by norm_num) (by norm_num)

end VSGame
